import Mathlib

/-!
Verification development for the libusbnet client library (`src/usbnet.c`).

The file embeds, as executable Lean functions, the parts of the library the
claims are about:

* the device-tree synchronizer inside `usb_find_devices` (lines 207-418),
  including positional reuse of bus/device nodes, growth allocation and
  trailing trim, with an explicit allocation counter standing for `malloc`
  identity (node ids play the role of heap addresses);
* the per-call response handling of the one-shot RPCs (`usb_open`,
  `usb_close`, `usb_set_configuration`, `usb_set_altinterface`,
  `usb_bulk_read`, `usb_interrupt_read`, ...);
* the transport-descriptor acquisition and liveness probe of `init_hostfd`
  (lines 100-146).

The packet codec (`protocol.h`) and the structure declarations of
`usbnet.h` are not part of `src/`; the corresponding Lean definitions are
modelled from the spec's interface description (typed tag/value fields with
advance/descend cursor operations, bounded strings, fixed opcode
enumeration) and are marked as such in their doc comments.
-/

namespace Usbnet

/-- Raw bytes of a wire field or of a C structure, one `Nat` per byte. -/
abbrev Bytes := List Nat

/-- Modelled from the spec: a decoded wire field as exposed by the external
packet codec's cursor — integer, length-prefixed string (OctetType) or raw
bytes (RawType).  Structure/sequence markers are modelled separately at the
level where the synchronizer consumes them. -/
inductive WireItem where
  | int (v : Int)
  | octet (s : String)
  | raw (b : Bytes)
deriving Repr, DecidableEq

/-- Modelled from the spec: one child of a bus record on the wire — either a
plain typed field or a sequence element (`SequenceType`) holding one device
record's flat list of fields. -/
inductive BusChild where
  | item (i : WireItem)
  | devseq (children : List WireItem)
deriving Repr, DecidableEq

/-- Modelled from the spec: one top-level element of a `find_devices`
response after the leading change count — a bus record (`StructureType`)
or an unexpected element that the synchronizer skips (line 393-396). -/
inductive TopElem where
  | bus (children : List BusChild)
  | other (i : WireItem)
deriving Repr, DecidableEq

/-- Bytes of a string as `strcpy`/`memcpy` would read them from the codec
buffer. -/
def strBytes (s : String) : Bytes := s.toList.map Char.toNat

/-- Value of `as_int(it.val, it.len)` on the cursor's current item.  The
synchronizer only applies it to integer fields on the modelled payloads;
the reinterpretation of a non-integer field's bytes lives inside the
external codec and is not needed by any claim. -/
def asIntItem : Option WireItem → Int
  | some (.int v) => v
  | _ => 0

/-- Bytes `memcpy` would read from the cursor's current item (`it.val`,
`it.len`).  Empty when the cursor is exhausted. -/
def itemBytes : Option WireItem → Bytes
  | some (.raw b) => b
  | some (.octet s) => strBytes s
  | _ => []

/-- `sizeof(struct usb_device_descriptor)` — 18 bytes, no pointer members
(modelled from the spec's fixed-size raw device descriptor; standard USB
layout with `idVendor` at offset 8 and `idProduct` at offset 10,
little-endian). -/
def USB_DEV_DESC_SIZE : Nat := 18

/-- `sizeof(struct usb_config_descriptor)` on LP64 (scalar prefix with
`bNumInterfaces` at offset 4, followed by the `interface`/`extra` pointer
members); used only as the clamp bound `szlen` of line 303. -/
def USB_CONFIG_DESC_SIZE : Nat := 40

/-- `sizeof(struct usb_interface_descriptor)` on LP64 (`bNumEndpoints` at
offset 4); clamp bound of line 342. -/
def USB_IFACE_DESC_SIZE : Nat := 40

/-- `sizeof(struct usb_endpoint_descriptor)` on LP64; clamp bound of
line 357. -/
def USB_EP_DESC_SIZE : Nat := 32

/-- Modelled from the spec: capacity of `usb_bus.dirname` (bounded string,
`PATH_MAX + 1` in the header the repository mirrors). -/
def busDirnameCapacity : Nat := 4097

/-- Modelled from the spec: capacity of `usb_device.filename`. -/
def devFilenameCapacity : Nat := 4097

/-- Number of bytes `strcpy` writes into `dirname`/`filename` (lines 257 and
289): the whole source string plus its terminator — no clamp against the
destination capacity appears in the source. -/
def strcpyWriteLen (srcLen : Nat) : Nat := srcLen + 1

/-- Number of bytes the device-descriptor `memcpy` of line 295 writes:
`it.len`, with no clamp against `sizeof(struct usb_device_descriptor)`. -/
def devDescCopyLen (wireLen : Nat) : Nat := wireLen

/-- `szlen` of lines 303-305: `sizeof` clamped down to `it.len`. -/
def configCopyLen (wireLen : Nat) : Nat :=
  if USB_CONFIG_DESC_SIZE > wireLen then wireLen else USB_CONFIG_DESC_SIZE

/-- `szlen` of lines 342-344 for one alt-setting. -/
def ifaceCopyLen (wireLen : Nat) : Nat :=
  if USB_IFACE_DESC_SIZE > wireLen then wireLen else USB_IFACE_DESC_SIZE

/-- `szlen` of lines 357-359 for one endpoint. -/
def epCopyLen (wireLen : Nat) : Nat :=
  if USB_EP_DESC_SIZE > wireLen then wireLen else USB_EP_DESC_SIZE

/-- Effect of `memcpy(dst, src, src.length)` on a destination object of
`dst.length` bytes: the copied prefix lands in the object, bytes of `dst`
beyond the source length keep their old value.  (When `src` is longer than
`dst` the surplus spills past the object; claim C3 treats that overflow via
the copy-length functions above.) -/
def memcpyOver (dst src : Bytes) : Bytes :=
  src.take dst.length ++ dst.drop src.length

/-- One endpoint node: the descriptor bytes copied at line 361 (`extra` is
explicitly discarded at lines 365-366, so it is not carried). -/
structure Endpoint where
  bytes : Bytes
deriving Repr, DecidableEq

/-- One alt-setting node: descriptor bytes (line 346) and its owned endpoint
array. -/
structure AltSetting where
  bytes : Bytes
  endpoints : List Endpoint
deriving Repr, DecidableEq

/-- `bNumEndpoints`: offset 4 of the copied interface descriptor. -/
def AltSetting.numEndpoints (a : AltSetting) : Nat := a.bytes.getD 4 0

/-- One interface node: `num_altsetting` read at line 329 and the owned
alt-setting array. -/
structure Interface where
  num_altsetting : Int
  altsettings : List AltSetting
deriving Repr, DecidableEq

/-- The device's configuration subtree: the bytes copied at line 308 and the
owned interface array (freshly allocated every sync at line 313). -/
structure ConfigDesc where
  bytes : Bytes
  interfaces : List Interface
deriving Repr, DecidableEq

/-- `bNumInterfaces`: offset 4 of the copied configuration descriptor. -/
def ConfigDesc.numInterfaces (c : ConfigDesc) : Nat := c.bytes.getD 4 0

/-- A device node of the cached tree.  `id` stands for the node's heap
address (allocation identity); `busId` is the `dev->bus` back-reference set
at allocation (line 278); `config = none` models the NULL pointer a freshly
`memset` device carries until a configuration field is decoded. -/
structure Device where
  id : Nat
  busId : Nat
  filename : String
  descriptor : Bytes
  config : Option ConfigDesc
  devnum : Int
deriving Repr, DecidableEq

/-- `idVendor`, little-endian at offset 8 of the raw device descriptor. -/
def Device.idVendor (d : Device) : Nat :=
  d.descriptor.getD 8 0 + 256 * d.descriptor.getD 9 0

/-- `idProduct`, little-endian at offset 10 of the raw device descriptor. -/
def Device.idProduct (d : Device) : Nat :=
  d.descriptor.getD 10 0 + 256 * d.descriptor.getD 11 0

/-- A bus node of the cached tree; `id` stands for its heap address. -/
structure Bus where
  id : Nat
  dirname : String
  location : Int
  devices : List Device
deriving Repr, DecidableEq

/-- Allocation / release activity of one synchronization at the bus and
device levels.  `busUnlink` counts busses removed by the trim loop of lines
399-404 (the source unlinks them without `free`); `devFree` counts the
`free(ddev)` calls of the device trim loop, lines 385-390. -/
structure SyncStats where
  busAlloc : Nat
  devAlloc : Nat
  devFree : Nat
  busUnlink : Nat
deriving Repr, DecidableEq

/-- A freshly `malloc`ed and `memset`-zeroed device (lines 276-277):
empty filename, zero descriptor bytes, NULL config, devnum 0. -/
def freshDevice (busId id : Nat) : Device :=
  ⟨id, busId, "", List.replicate USB_DEV_DESC_SIZE 0, none, 0⟩

/-- A freshly `malloc`ed and `memset`-zeroed bus (lines 246-247). -/
def freshBus (id : Nat) : Bus := ⟨id, "", 0, []⟩

/-- `if(it.type == OctetType) { ... iter_next(&it); }` — consume the current
item only when its tag matches, otherwise leave the cursor in place
(lines 256-259, 288-291). -/
def readStr (its : List WireItem) : Option String × List WireItem :=
  match its with
  | .octet s :: rest => (some s, rest)
  | _ => (none, its)

/-- Tag-checked read of a raw field (lines 294-297, 300-321). -/
def readRaw (its : List WireItem) : Option Bytes × List WireItem :=
  match its with
  | .raw b :: rest => (some b, rest)
  | _ => (none, its)

/-- Tag-checked read of an integer field (lines 262-265, 376-379). -/
def readInt (its : List WireItem) : Option Int × List WireItem :=
  match its with
  | .int v :: rest => (some v, rest)
  | _ => (none, its)

/-- Endpoint loop of lines 355-367: `bNumEndpoints` unconditional clamped
copies, each consuming one cursor item. -/
def loadEndpoints : Nat → List WireItem → List Endpoint × List WireItem
  | 0, its => ([], its)
  | Nat.succ k, its =>
      let e : Endpoint := ⟨(itemBytes its.head?).take USB_EP_DESC_SIZE⟩
      let (es, rest) := loadEndpoints k its.tail
      (e :: es, rest)

/-- Alt-setting loop of lines 338-372: clamped copy of the interface
descriptor, then that descriptor's endpoint count drives the endpoint
loop. -/
def loadAltSettings : Nat → List WireItem → List AltSetting × List WireItem
  | 0, its => ([], its)
  | Nat.succ k, its =>
      let b := (itemBytes its.head?).take USB_IFACE_DESC_SIZE
      let (eps, rest) := loadEndpoints (b.getD 4 0) its.tail
      let (tl, rest2) := loadAltSettings k rest
      (⟨b, eps⟩ :: tl, rest2)

/-- Interface loop of lines 325-373: the alt-setting count is read from the
cursor with `as_int` and consumed unconditionally (line 329-330, no tag
check in the source). -/
def loadInterfaces : Nat → List WireItem → List Interface × List WireItem
  | 0, its => ([], its)
  | Nat.succ k, its =>
      let n := asIntItem its.head?
      let (alts, rest) := loadAltSettings n.toNat its.tail
      let (tl, rest2) := loadInterfaces k rest
      (⟨n, alts⟩ :: tl, rest2)

/-- The `memcpy(&dev->descriptor, it.val, it.len)` of line 295 applied to
the optional raw field. -/
def descWrite (old : Bytes) : Option Bytes → Bytes
  | some b => memcpyOver old b
  | none => old

/-- Decoding of one device record (lines 286-381) into an existing (or
fresh) node.  Returns `none` exactly when the source dereferences the NULL
`dev->config` pointer at line 325: the configuration field was absent from
the wire and the node never had a configuration. -/
def decodeDevice (old : Device) (its0 : List WireItem) : Option Device :=
  let (fn, its1) := readStr its0
  let (dsc, its2) := readRaw its1
  let (cfgRaw, its3) := readRaw its2
  let cfg0 : Option ConfigDesc :=
    match cfgRaw with
    | some b => some ⟨b.take USB_CONFIG_DESC_SIZE, []⟩
    | none => old.config
  match cfg0 with
  | none => none
  | some c =>
      let (ifs, its4) := loadInterfaces c.numInterfaces its3
      let (dn, _) := readInt its4
      some { old with
        filename := fn.getD old.filename,
        descriptor := descWrite old.descriptor dsc,
        config := some { c with interfaces := ifs },
        devnum := dn.getD old.devnum }

/-- The device walk of lines 268-390: wire sequence elements paired
positionally with the cached list, fresh nodes allocated for growth
(ids drawn from `ctr`), trailing cached nodes freed by the trim loop.
Returns `(devices, ctr, devAlloc, devFree)`. -/
def syncDevs (busId : Nat) :
    List Device → List (List WireItem) → Nat →
    Option (List Device × Nat × Nat × Nat)
  | old, [], ctr => some ([], ctr, 0, old.length)
  | [], w :: ws, ctr =>
      match decodeDevice (freshDevice busId ctr) w with
      | none => none
      | some d =>
          match syncDevs busId [] ws (ctr + 1) with
          | none => none
          | some (ds, c, a, f) => some (d :: ds, c, a + 1, f)
  | o :: os, w :: ws, ctr =>
      match decodeDevice o w with
      | none => none
      | some d =>
          match syncDevs busId os ws ctr with
          | none => none
          | some (ds, c, a, f) => some (d :: ds, c, a, f)

/-- Leading run of `SequenceType` children: the device loop condition of
line 271 stops at the first non-sequence child. -/
def busDevSeqs : List BusChild → List (List WireItem)
  | .devseq w :: rest => w :: busDevSeqs rest
  | _ => []

/-- Tag-checked read of the bus dirname (lines 256-259). -/
def readBusStr (ch : List BusChild) : Option String × List BusChild :=
  match ch with
  | .item (.octet s) :: rest => (some s, rest)
  | _ => (none, ch)

/-- Tag-checked read of the bus location (lines 262-265). -/
def readBusInt (ch : List BusChild) : Option Int × List BusChild :=
  match ch with
  | .item (.int v) :: rest => (some v, rest)
  | _ => (none, ch)

/-- Decoding of one bus record (lines 239-404 for one structure element).
`rbus->devices` is only assigned when a fresh first device is linked into an
empty list (lines 281-282); with zero wire devices the old head pointer is
left in place even though the trim loop frees every old device — the
`if wire.isEmpty` below reproduces exactly that. -/
def decodeBus (old : Bus) (ch0 : List BusChild) (ctr : Nat) :
    Option (Bus × Nat × Nat × Nat) :=
  let (dn, ch1) := readBusStr ch0
  let (loc, ch2) := readBusInt ch1
  let wire := busDevSeqs ch2
  match syncDevs old.id old.devices wire ctr with
  | none => none
  | some (ds, c, a, f) =>
      some ({ old with
        dirname := dn.getD old.dirname,
        location := loc.getD old.location,
        devices := if wire.isEmpty then old.devices else ds }, c, a, f)

/-- The bus walk of lines 230-404: structure elements paired positionally
with the cached bus list, growth allocated (lines 243-251), other element
kinds skipped without advancing the cached cursor (lines 393-396), trailing
cached busses unlinked — without `free` — by lines 399-404. -/
def syncBusses :
    List Bus → List TopElem → Nat → Option (List Bus × Nat × SyncStats)
  | old, [], ctr => some ([], ctr, ⟨0, 0, 0, old.length⟩)
  | old, .other _ :: es, ctr => syncBusses old es ctr
  | [], .bus ch :: es, ctr =>
      match decodeBus (freshBus ctr) ch (ctr + 1) with
      | none => none
      | some (b, c2, a, f) =>
          match syncBusses [] es c2 with
          | none => none
          | some (bs, c3, st) =>
              some (b :: bs, c3,
                ⟨st.busAlloc + 1, st.devAlloc + a, st.devFree + f, st.busUnlink⟩)
  | o :: os, .bus ch :: es, ctr =>
      match decodeBus o ch ctr with
      | none => none
      | some (b, c2, a, f) =>
          match syncBusses os es c2 with
          | none => none
          | some (bs, c3, st) =>
              some (b :: bs, c3,
                ⟨st.busAlloc, st.devAlloc + a, st.devFree + f, st.busUnlink⟩)

/-- `usb_find_devices` (lines 207-418) on a received response.  `resp =
none` is the `pkt_recv` failure path: no sync, result 0, cache untouched.
Otherwise the first wire item yields the remote change count when it is an
integer (lines 226-228), and the remaining elements drive the synchronizer
starting from the cached bus list.  Returns the reported change count, the
new cached list (`__remote_bus`), the allocation counter and the stats;
`none` models the NULL-configuration crash inherited from `decodeDevice`. -/
def usb_find_devices_model (cache : List Bus) (resp : Option (List TopElem))
    (ctr : Nat) : Option (Int × List Bus × Nat × SyncStats) :=
  match resp with
  | none => some (0, cache, ctr, ⟨0, 0, 0, 0⟩)
  | some elems =>
      let res : Int :=
        match elems.head? with
        | some (.other (.int v)) => v
        | _ => 0
      match syncBusses cache elems.tail ctr with
      | none => none
      | some (bs, c, st) => some (res, bs, c, st)

/-- Modelled from the spec: the fixed operation-code enumeration of
`protocol.h` (one leading byte per request/response). -/
inductive Opcode where
  | usbInitOp | usbFindBusses | usbFindDevices | usbOpen | usbClose
  | usbSetConfiguration | usbSetAltInterface | usbResetEp | usbClearHalt
  | usbReset | usbClaimInterface | usbReleaseInterface | usbControlMsg
  | usbBulkRead | usbBulkWrite | usbInterruptWrite | usbInterruptRead
  | usbDetachKernelDriver
deriving Repr, DecidableEq

/-- A received response buffer: the leading opcode byte (`pkt.buf[0]`) and
the decoded field cursor behind it. -/
structure RpcResponse where
  opcode : Opcode
  items : List WireItem
deriving Repr, DecidableEq

/-- Modelled from the spec: the `usb_dev_handle` of `usbnet.h` — remote
session token `fd`, back-references to the device and its bus (heap ids
here), and the last-applied selectors. -/
structure UsbDevHandle where
  fd : Int
  deviceId : Nat
  busId : Nat
  config : Int
  interface : Int
  altsetting : Int
deriving Repr, DecidableEq

/-- Shared response shape of the one-shot RPCs that check the leading
opcode and then decode up to two integers: primary result (default `-1`)
and an optional second integer (session token for `open`, echoed selector
for `set-configuration`/`set-alt-interface`).  The second integer is only
reachable after a successful first decode, exactly as the cursor moves in
the source (e.g. lines 449-459, 523-537). -/
def rpcParse2 (expected : Opcode) (resp : Option RpcResponse) :
    Int × Option Int :=
  match resp with
  | none => (-1, none)
  | some r =>
      if r.opcode = expected then
        match r.items with
        | .int v :: .int w :: _ => (v, some w)
        | .int v :: _ => (v, none)
        | _ => (-1, none)
      else (-1, none)

/-- `usb_open` (lines 433-474): primary result and allocated handle.  The
handle is built only when `res >= 0` (line 463), with `fd` the second
decoded integer or its `-1` default, and all three selectors at the `-1`
unset sentinel (line 468). -/
def usb_open_model (deviceId busId : Nat) (resp : Option RpcResponse) :
    Int × Option UsbDevHandle :=
  let (res, tok) := rpcParse2 .usbOpen resp
  if 0 ≤ res then
    (res, some ⟨tok.getD (-1), deviceId, busId, -1, -1, -1⟩)
  else (res, none)

/-- `usb_close` (lines 476-505): the second component records that
`free(dev)` ran — it is executed at line 490, before the response is even
received, on every path. -/
def usb_close_model (_h : UsbDevHandle) (resp : Option RpcResponse) :
    Int × Bool :=
  let freed := true
  match resp with
  | none => (-1, freed)
  | some r =>
      if r.opcode = .usbClose then
        match r.items with
        | .int v :: _ => (v, freed)
        | _ => (-1, freed)
      else (-1, freed)

/-- `usb_set_configuration` (lines 507-546): the local `configuration`
variable starts as the caller's request, is overwritten by the echoed
second integer when one decodes, and is stored into `dev->config` at
line 540 unconditionally — also on the failure paths. -/
def usb_set_configuration_model (h : UsbDevHandle) (cfg : Int)
    (resp : Option RpcResponse) : Int × UsbDevHandle :=
  let (res, echo) := rpcParse2 .usbSetConfiguration resp
  (res, { h with config := echo.getD cfg })

/-- `usb_set_altinterface` (lines 548-587): same shape; `dev->altsetting`
is assigned unconditionally at line 581. -/
def usb_set_altinterface_model (h : UsbDevHandle) (alt : Int)
    (resp : Option RpcResponse) : Int × UsbDevHandle :=
  let (res, echo) := rpcParse2 .usbSetAltInterface resp
  (res, { h with altsetting := echo.getD alt })

/-- `minlen` of the read-style transfers: `(res > size) ? size : res`. -/
def minlenOf (res size : Int) : Int := if res > size then size else res

/-- Payload handling shared by the read-style transfers (lines 811-823,
917-929): primary integer result, then an octet field copied into the
caller's buffer only when `res > 0`, clamped to `minlen`. -/
def parseReadPayload (size : Int) (items : List WireItem) : Int × Bytes :=
  match items with
  | .int v :: .octet s :: _ =>
      (v, if 0 < v then (strBytes s).take (minlenOf v size).toNat else [])
  | .int v :: _ => (v, [])
  | _ => (-1, [])

/-- `usb_bulk_read` (lines 792-830): the leading opcode is stored into the
local `op` (line 810) but never compared against `UsbBulkRead` — the
response is parsed and the payload copied whatever the opcode says. -/
def usb_bulk_read_model (size : Int) (resp : Option RpcResponse) :
    Int × Bytes :=
  match resp with
  | none => (-1, [])
  | some r => parseReadPayload size r.items

/-- `usb_interrupt_read` (lines 899-937): same shape but the opcode is
checked at line 916; a mismatch leaves the `-1` default and copies
nothing. -/
def usb_interrupt_read_model (size : Int) (resp : Option RpcResponse) :
    Int × Bytes :=
  match resp with
  | none => (-1, [])
  | some r =>
      if r.opcode = .usbInterruptRead then parseReadPayload size r.items
      else (-1, [])

/-- Modelled from the spec: the transport provider `init_hostfd` talks to —
the descriptor the shared-memory segment would currently yield (`-1` when
unavailable) and the per-descriptor outcome of the `getpeername` liveness
probe. -/
structure TransportEnv where
  shmFd : Int
  peerAlive : Int → Bool

/-- `init_hostfd` (lines 100-146).  State in: the cached `__remote_fd`.
The SHM lookup runs only when no descriptor is cached (line 110); the
probe then runs on whatever descriptor is at hand and on failure resets it
to `-1` (lines 135-138); a `-1` descriptor after the probe is fatal —
`exit(1)` at line 142, modelled as `none` — with no re-acquisition inside
the call.  Returns (call outcome, new cached `__remote_fd`). -/
def init_hostfd_model (cached : Int) (env : TransportEnv) :
    Option Int × Int :=
  let fd0 := if cached = -1 then env.shmFd else cached
  let fd1 := if env.peerAlive fd0 then fd0 else -1
  if fd1 = -1 then (none, -1) else (some fd1, fd1)

/-- One public API operation applied to an open `usb_dev_handle`, reduced
to its effect on the handle's fields.  Only `usb_set_configuration`
(line 540) and `usb_set_altinterface` (line 581) write through the handle
pointer; `usb_claim_interface`, `usb_release_interface`, `usb_resetep`,
`usb_clear_halt`, `usb_reset`, the transfer calls and
`usb_detach_kernel_driver_np` only read `dev->fd` and never assign a
handle field. -/
inductive HandleOp where
  | setConfiguration (cfg : Int) (resp : Option RpcResponse)
  | setAltInterface (alt : Int) (resp : Option RpcResponse)
  | claimInterface
  | releaseInterface
  | resetEp
  | clearHalt
  | resetDevice
  | controlMsg
  | bulkRead
  | bulkWrite
  | interruptRead
  | interruptWrite
  | detachKernelDriver
deriving Repr, DecidableEq

/-- Handle-state effect of one operation (see `HandleOp`). -/
def applyOp (h : UsbDevHandle) : HandleOp → UsbDevHandle
  | .setConfiguration cfg resp => (usb_set_configuration_model h cfg resp).2
  | .setAltInterface alt resp => (usb_set_altinterface_model h alt resp).2
  | .claimInterface => h
  | .releaseInterface => h
  | .resetEp => h
  | .clearHalt => h
  | .resetDevice => h
  | .controlMsg => h
  | .bulkRead => h
  | .bulkWrite => h
  | .interruptRead => h
  | .interruptWrite => h
  | .detachKernelDriver => h

/-- Raw 18-byte device descriptor of the spec's enumeration scenario:
vendor `0x1d6b`, product `0x0002`, one configuration. -/
def scenarioDesc : Bytes :=
  [18, 1, 0, 2, 9, 0, 0, 64, 0x6b, 0x1d, 0x02, 0x00, 0, 1, 0, 0, 0, 1]

/-- Raw configuration descriptor: `bNumInterfaces = 1` at offset 4. -/
def scenarioConf : Bytes := [9, 2, 25, 0, 1, 1, 0, 0x80, 50]

/-- Raw interface (alt-setting) descriptor: `bNumEndpoints = 0` at
offset 4. -/
def scenarioAlt : Bytes := [9, 4, 0, 0, 0, 255, 255, 255, 0]

/-- Wire record of the scenario device `"003"`: filename, device
descriptor, configuration descriptor, one interface with alt-setting count
1 and its single alt-setting descriptor, then `devnum = 3`. -/
def scenarioDevItems : List WireItem :=
  [.octet "003", .raw scenarioDesc, .raw scenarioConf, .int 1,
   .raw scenarioAlt, .int 3]

/-- `find_devices` response: change count 1, one bus `"001"` at location 1
holding the scenario device. -/
def payloadA : List TopElem :=
  [.other (.int 1),
   .bus [.item (.octet "001"), .item (.int 1), .devseq scenarioDevItems]]

/-- A later response for the same bus reporting zero devices. -/
def payloadB : List TopElem :=
  [.other (.int 1), .bus [.item (.octet "001"), .item (.int 1)]]

/-- A response whose single device record lacks the raw configuration
field (the devnum integer follows the device descriptor directly). -/
def payloadNoConfig : List TopElem :=
  [.other (.int 1),
   .bus [.item (.octet "001"), .item (.int 1),
         .devseq [.octet "003", .raw scenarioDesc, .int 3]]]

/-- The device node produced by syncing `payloadA` into an empty cache. -/
def devA : Device :=
  ⟨1, 0, "003", scenarioDesc,
   some ⟨scenarioConf, [⟨1, [⟨scenarioAlt, []⟩]⟩]⟩, 3⟩

/-- The bus node produced by syncing `payloadA` into an empty cache. -/
def busA : Bus := ⟨0, "001", 1, [devA]⟩

/-- A bulk/interrupt-read style response whose leading opcode is the wrong
one (`UsbBulkWrite`), carrying result 3 and a 3-byte payload. -/
def mismatchedReadResp : RpcResponse := ⟨.usbBulkWrite, [.int 3, .octet "abc"]⟩

/-- A handle whose cached configuration selector is 5 (and the other
selectors unset), used to exhibit the selector-update behaviour. -/
def handleC8 : UsbDevHandle := ⟨7, 0, 0, 5, -1, -1⟩

/-- A transport environment whose provider currently yields descriptor 7
and where exactly descriptor 7 passes the `getpeername` probe. -/
def envProbe : TransportEnv := ⟨7, fun fd => fd == 7⟩

/-! ## Helper lemmas -/

theorem opt_getD_idem {α : Type} (o : Option α) (a : α) :
    o.getD (o.getD a) = o.getD a := by
  cases o <;> rfl

theorem memcpyOver_length (dst src : Bytes) :
    (memcpyOver dst src).length = dst.length := by
  simp [memcpyOver]
  omega

theorem memcpyOver_drop (dst src : Bytes) :
    (memcpyOver dst src).drop src.length = dst.drop src.length := by
  by_cases hle : src.length ≤ dst.length
  · rw [memcpyOver, List.take_of_length_le hle, List.drop_left]
  · have h1 : dst.drop src.length = [] := List.drop_eq_nil_of_le (by omega)
    have h2 : (src.take dst.length).length ≤ src.length := by
      rw [List.length_take]; omega
    rw [memcpyOver, h1, List.append_nil, List.drop_eq_nil_of_le h2]

theorem memcpyOver_idem (dst src : Bytes) :
    memcpyOver (memcpyOver dst src) src = memcpyOver dst src := by
  show src.take (memcpyOver dst src).length ++
      (memcpyOver dst src).drop src.length = memcpyOver dst src
  rw [memcpyOver_length, memcpyOver_drop]
  rfl

theorem descWrite_idem (old : Bytes) (o : Option Bytes) :
    descWrite (descWrite old o) o = descWrite old o := by
  cases o with
  | none => rfl
  | some b => simp [descWrite, memcpyOver_idem]

/-- Re-decoding a device record into the node it just produced reproduces
that node: every field is either overwritten with the same wire value or
left at the value the first decode already left it. -/
theorem decodeDevice_idem (old d : Device) (w : List WireItem)
    (h : decodeDevice old w = some d) : decodeDevice d w = some d := by
  rcases h1 : readStr w with ⟨fn, its1⟩
  rcases h2 : readRaw its1 with ⟨dsc, its2⟩
  rcases h3 : readRaw its2 with ⟨cfgRaw, its3⟩
  simp only [decodeDevice, h1, h2, h3] at h ⊢
  cases cfgRaw with
  | some b =>
      rcases h4 : loadInterfaces
          (ConfigDesc.numInterfaces ⟨b.take USB_CONFIG_DESC_SIZE, []⟩) its3
        with ⟨ifs, its4⟩
      rcases h5 : readInt its4 with ⟨dn, rest⟩
      simp only [h4, h5] at h ⊢
      injection h with h'
      subst h'
      simp [opt_getD_idem, descWrite_idem]
  | none =>
      cases hoc : old.config with
      | none => rw [hoc] at h; cases h
      | some c =>
          obtain ⟨cb, cifs⟩ := c
          rcases h4 : loadInterfaces
              (ConfigDesc.numInterfaces ⟨cb, cifs⟩) its3 with ⟨ifs, its4⟩
          rcases h5 : readInt its4 with ⟨dn, rest⟩
          rw [hoc] at h
          simp only [h4, h5] at h
          injection h with h'
          subst h'
          have h4b : loadInterfaces (ConfigDesc.numInterfaces ⟨cb, ifs⟩) its3
              = (ifs, its4) := h4
          simp only [h4b, h5]
          simp [opt_getD_idem, descWrite_idem]

/-- Re-running the device walk against the list it just produced pairs
every position with an existing node, so it allocates nothing, frees
nothing, leaves the counter alone and reproduces the same list. -/
theorem syncDevs_idem (bid : Nat) (ws : List (List WireItem)) :
    ∀ (old : List Device) (ctr : Nat) (ds : List Device) (c a f : Nat),
      syncDevs bid old ws ctr = some (ds, c, a, f) →
      ∀ c0, syncDevs bid ds ws c0 = some (ds, c0, 0, 0) := by
  induction ws with
  | nil =>
      intro old ctr ds c a f h c0
      simp only [syncDevs] at h
      cases h
      simp only [syncDevs, List.length_nil]
  | cons w ws ih =>
      intro old ctr ds c a f h c0
      cases old with
      | nil =>
          simp only [syncDevs] at h
          rcases hd : decodeDevice (freshDevice bid ctr) w with _ | d <;>
            rw [hd] at h
          · cases h
          rcases hrest : syncDevs bid [] ws (ctr + 1) with _ | ⟨ds', c', a', f'⟩ <;>
            rw [hrest] at h
          · cases h
          cases h
          have hd2 := decodeDevice_idem _ _ _ hd
          have hre := ih [] (ctr + 1) ds' c a' f hrest c0
          simp only [syncDevs, hd2, hre]
      | cons o os =>
          simp only [syncDevs] at h
          rcases hd : decodeDevice o w with _ | d <;> rw [hd] at h
          · cases h
          rcases hrest : syncDevs bid os ws ctr with _ | ⟨ds', c', a', f'⟩ <;>
            rw [hrest] at h
          · cases h
          cases h
          have hd2 := decodeDevice_idem _ _ _ hd
          have hre := ih os ctr ds' c a f hrest c0
          simp only [syncDevs, hd2, hre]

/-- Re-decoding a bus record into the node it just produced reproduces the
node without allocating or freeing, provided the node started with an empty
device list (as every freshly allocated bus does). -/
theorem decodeBus_idem (old : Bus) (ch : List BusChild) (ctr : Nat)
    (b : Bus) (c a f : Nat) (hdev : old.devices = [])
    (h : decodeBus old ch ctr = some (b, c, a, f)) :
    ∀ c0, decodeBus b ch c0 = some (b, c0, 0, 0) := by
  intro c0
  rcases h1 : readBusStr ch with ⟨dn, ch1⟩
  rcases h2 : readBusInt ch1 with ⟨loc, ch2⟩
  simp only [decodeBus, h1, h2] at h ⊢
  cases hw : busDevSeqs ch2 with
  | nil =>
      rw [hw, hdev] at h
      simp only [syncDevs] at h
      cases h
      simp [syncDevs, opt_getD_idem]
  | cons w ws =>
      rw [hw] at h
      rcases hs : syncDevs old.id old.devices (w :: ws) ctr
          with _ | ⟨ds, cc, aa, ff⟩ <;> rw [hs] at h
      · cases h
      cases h
      have hre := syncDevs_idem old.id (w :: ws) old.devices ctr ds c a f hs c0
      simp [hre, opt_getD_idem]

/-- Re-running the bus walk against the list it just produced from an empty
cache reuses every node and performs no allocation, free or unlink. -/
theorem syncBusses_idem (es : List TopElem) :
    ∀ (ctr : Nat) (bs : List Bus) (c : Nat) (st : SyncStats),
      syncBusses [] es ctr = some (bs, c, st) →
      ∀ c0, syncBusses bs es c0 = some (bs, c0, ⟨0, 0, 0, 0⟩) := by
  induction es with
  | nil =>
      intro ctr bs c st h c0
      simp only [syncBusses] at h
      cases h
      simp only [syncBusses, List.length_nil]
  | cons e es ih =>
      intro ctr bs c st h c0
      cases e with
      | other i =>
          simp only [syncBusses] at h ⊢
          exact ih ctr bs c st h c0
      | bus ch =>
          simp only [syncBusses] at h
          rcases hb : decodeBus (freshBus ctr) ch (ctr + 1)
              with _ | ⟨b, c2, a2, f2⟩ <;> simp only [hb] at h
          · cases h
          rcases hrest : syncBusses [] es c2 with _ | ⟨bs2, c3, st2⟩ <;>
            simp only [hrest] at h
          · cases h
          cases h
          have hb2 := decodeBus_idem (freshBus ctr) ch (ctr + 1) b c2 a2 f2 rfl hb c0
          have hre := ih c2 bs2 c st2 hrest c0
          simp only [syncBusses, hb2, hre]

/-! ## Claim theorems -/

/-- C1 (amended): when the earlier of two consecutive `usb_find_devices`
synchronizations with byte-identical payloads starts from an empty cache,
the second run returns the same remote change count, yields a structurally
identical tree reusing the same bus and device node identities (the very
same list of nodes, ids included), and performs no allocation, free or
unlink at the bus and device levels. -/
theorem find_devices_idempotent (elems : List TopElem) (ctr : Nat)
    (res : Int) (bs : List Bus) (c : Nat) (st : SyncStats)
    (h : usb_find_devices_model [] (some elems) ctr = some (res, bs, c, st)) :
    usb_find_devices_model bs (some elems) c = some (res, bs, c, ⟨0, 0, 0, 0⟩) := by
  simp only [usb_find_devices_model] at h ⊢
  rcases hs : syncBusses [] elems.tail ctr with _ | ⟨bs2, c2, st2⟩ <;>
    simp only [hs] at h
  · cases h
  cases h
  simp only [syncBusses_idem elems.tail ctr bs c st hs c]

/-- Witness for `find_devices_idempotent`: the scenario payload synced
twice from the empty cache; the second run reuses bus 0 and device 1 with
zero allocations and frees. -/
theorem find_devices_idempotent_witness :
    usb_find_devices_model [busA] (some payloadA) 2 =
      some (1, [busA], 2, ⟨0, 0, 0, 0⟩) :=
  find_devices_idempotent payloadA 0 1 [busA] 2 ⟨1, 1, 0, 0⟩ (by decide)

/-- C1 counterexample: after a sync of `payloadA` and one sync of
`payloadB` (same bus, zero devices) the cache is `[busA]` again — the
freed device node is still linked because `rbus->devices` is never reset
(lines 281-282 never run when no device record arrives).  A further sync
of the byte-identical `payloadB` therefore walks the same (already freed)
node and frees it again: the second of two consecutive syncs from
byte-identical payloads performs `devFree = 1 ≠ 0`, a spurious (double)
free at the device level, refuting the claim as stated. -/
theorem idempotent_reuse_counterexample :
    usb_find_devices_model [] (some payloadA) 0 =
      some (1, [busA], 2, ⟨1, 1, 0, 0⟩)
    ∧ usb_find_devices_model [busA] (some payloadB) 2 =
      some (1, [busA], 2, ⟨0, 0, 1, 0⟩)
    ∧ SyncStats.devFree ⟨0, 0, 1, 0⟩ = 1 := by decide

/-- C2: evaluating the synchronizer at the failing input.  Snapshot A
(`payloadA`) caches one bus with one device; snapshot B (`payloadB`)
reports the same bus with zero devices.  The device trim loop frees the
device (`devFree = 1`) but the cached bus still lists it afterwards
(`busA.devices.length = 1`): the surplus node is freed yet left linked,
instead of the device list shrinking to B's count of zero. -/
theorem shrink_to_zero_leaves_dangling_device :
    usb_find_devices_model [] (some payloadA) 0 =
      some (1, [busA], 2, ⟨1, 1, 0, 0⟩)
    ∧ usb_find_devices_model [busA] (some payloadB) 2 =
      some (1, [busA], 2, ⟨0, 0, 1, 0⟩)
    ∧ busA.devices.length = 1 := by decide

/-- C3 (amended): the raw configuration, alt-setting and endpoint
descriptor copies are clamped to the destination structure size before
`memcpy`, and any copy of `src.length` bytes into a `dst.length`-byte
object leaves the destination bytes beyond the source length untouched.
(The dirname/filename `strcpy` and the device-descriptor `memcpy` are not
clamped — see the counterexample.) -/
theorem truncation_clipped_fields :
    (∀ L, configCopyLen L ≤ USB_CONFIG_DESC_SIZE
        ∧ ifaceCopyLen L ≤ USB_IFACE_DESC_SIZE
        ∧ epCopyLen L ≤ USB_EP_DESC_SIZE)
    ∧ ∀ (dst src : Bytes),
        (memcpyOver dst src).drop src.length = dst.drop src.length := by
  constructor
  · intro L
    refine ⟨?_, ?_, ?_⟩ <;>
      simp only [configCopyLen, ifaceCopyLen, epCopyLen] <;>
      split <;> omega
  · exact memcpyOver_drop

/-- C3 counterexample: a 30-byte wire device descriptor makes the
line-295 `memcpy` write 30 > 18 bytes into the 18-byte descriptor field,
and a 5000-character wire string makes the line-257/289 `strcpy` write
5001 bytes into a 4097-byte name field — the copies are not clipped at
the destination capacity. -/
theorem truncation_counterexample :
    devDescCopyLen 30 = 30 ∧ USB_DEV_DESC_SIZE < devDescCopyLen 30
    ∧ strcpyWriteLen 5000 = 5001
    ∧ busDirnameCapacity < strcpyWriteLen 5000
    ∧ devFilenameCapacity < strcpyWriteLen 5000 := by decide

/-- C4: evaluating the synchronizer at the failing input.  A device record
without a raw configuration field, decoded into a fresh node, leaves
`dev->config` NULL and the interface loop of line 325 dereferences it:
the sync does not complete with an empty configuration — it crashes,
modelled by `none`. -/
theorem absent_config_crashes_sync :
    usb_find_devices_model [] (some payloadNoConfig) 0 = none := by decide

/-- C5: the spec's enumeration scenario.  One bus `"001"` at location 1
with one device `"003"` (vendor `0x1d6b`, product `0x0002`, one interface,
one alt-setting, zero endpoints, devnum 3) synced into an empty cache
yields exactly that tree. -/
theorem enumeration_scenario :
    usb_find_devices_model [] (some payloadA) 0 =
      some (1, [busA], 2, ⟨1, 1, 0, 0⟩)
    ∧ busA.location = 1 ∧ busA.dirname = "001"
    ∧ busA.devices = [devA]
    ∧ devA.filename = "003"
    ∧ devA.idVendor = 0x1d6b
    ∧ devA.idProduct = 0x0002
    ∧ devA.devnum = 3
    ∧ (devA.config.map fun cf =>
        cf.interfaces.map fun i =>
          i.altsettings.map fun alt => alt.endpoints.length) =
      some [[0]] := by decide

/-- C6: evaluating `usb_bulk_read` at the failing input.  A response whose
leading opcode is `UsbBulkWrite` (not the request's `UsbBulkRead`) is
still parsed — result 3 is returned and 3 payload bytes are copied into
the caller's buffer — because line 810 stores the opcode without ever
comparing it; `usb_interrupt_read` on the very same response correctly
returns the `-1` sentinel and copies nothing. -/
theorem bulk_read_ignores_opcode_mismatch :
    usb_bulk_read_model 16 (some mismatchedReadResp) = (3, [97, 98, 99])
    ∧ usb_interrupt_read_model 16 (some mismatchedReadResp) = (-1, []) := by
  decide

/-- C7: the open/close contract.  `usb_open` returns a handle exactly when
the decoded primary result is non-negative; a `(result 0, token 7)`
response yields a handle with token 7 and all selectors unset; a negative
result yields no handle; `usb_close` releases the handle's storage on
every path, also when the remote result is negative. -/
theorem open_close_contract :
    (∀ (dI bI : Nat) (resp : Option RpcResponse),
        ((usb_open_model dI bI resp).2).isSome = true ↔
          0 ≤ (usb_open_model dI bI resp).1)
    ∧ (usb_open_model 3 1 (some ⟨.usbOpen, [.int 0, .int 7]⟩)).2 =
        some ⟨7, 3, 1, -1, -1, -1⟩
    ∧ (usb_open_model 3 1 (some ⟨.usbOpen, [.int (-1)]⟩)).2 = none
    ∧ (∀ (h : UsbDevHandle) (resp : Option RpcResponse),
        (usb_close_model h resp).2 = true)
    ∧ usb_close_model ⟨7, 3, 1, -1, -1, -1⟩ (some ⟨.usbClose, [.int (-9)]⟩) =
        (-9, true) := by
  refine ⟨?_, by decide, by decide, ?_, by decide⟩
  · intro dI bI resp
    rcases hp : rpcParse2 .usbOpen resp with ⟨res, tok⟩
    by_cases hres : 0 ≤ res <;> simp [usb_open_model, hp, hres]
  · intro h resp
    cases resp with
    | none => rfl
    | some r =>
        simp only [usb_close_model]
        split
        · split <;> rfl
        · rfl

/-- C8 counterexample: with a cached configuration selector of 5, a
`set-configuration` request for 3 whose response never arrives (or echoes
nothing) still overwrites the cached selector with the request value 3 —
line 540 stores `configuration` unconditionally — and likewise
`set-alt-interface`; the claim that a failed call leaves the selector
unchanged is false. -/
theorem selector_update_counterexample :
    handleC8.config = 5
    ∧ (usb_set_configuration_model handleC8 3 none).2.config = 3
    ∧ (usb_set_configuration_model handleC8 3
        (some ⟨.usbReset, [.int 0, .int 9]⟩)).2.config = 3
    ∧ (usb_set_altinterface_model handleC8 4 none).2.altsetting = 4 := by
  decide

/-- C8 (amended): the cached selector is assigned on every call — with the
echoed second integer whenever the response is usable and decodes one
(even when the primary result is negative), and otherwise with the
caller's requested value; the other handle fields are untouched. -/
theorem selector_update_amended :
    (∀ (h : UsbDevHandle) (cfg : Int) (resp : Option RpcResponse),
        ((usb_set_configuration_model h cfg resp).2).config =
          ((rpcParse2 .usbSetConfiguration resp).2).getD cfg
        ∧ ((usb_set_configuration_model h cfg resp).2).altsetting = h.altsetting
        ∧ ((usb_set_configuration_model h cfg resp).2).interface = h.interface
        ∧ ((usb_set_configuration_model h cfg resp).2).fd = h.fd)
    ∧ (∀ (h : UsbDevHandle) (alt : Int) (resp : Option RpcResponse),
        ((usb_set_altinterface_model h alt resp).2).altsetting =
          ((rpcParse2 .usbSetAltInterface resp).2).getD alt
        ∧ ((usb_set_altinterface_model h alt resp).2).config = h.config
        ∧ ((usb_set_altinterface_model h alt resp).2).interface = h.interface
        ∧ ((usb_set_altinterface_model h alt resp).2).fd = h.fd)
    ∧ (usb_set_configuration_model handleC8 3
        (some ⟨.usbSetConfiguration, [.int (-5), .int 9]⟩)).2.config = 9 := by
  refine ⟨?_, ?_, by decide⟩
  · intro h cfg resp
    rcases hp : rpcParse2 .usbSetConfiguration resp with ⟨res, echo⟩
    simp [usb_set_configuration_model, hp]
  · intro h alt resp
    rcases hp : rpcParse2 .usbSetAltInterface resp with ⟨res, echo⟩
    simp [usb_set_altinterface_model, hp]

/-- C9 (amended): whenever the liveness probe fails on the descriptor at
hand (the cached one, or the freshly acquired one when nothing was
cached), `init_hostfd` invalidates it and is immediately fatal — `exit(1)`
at line 142, modelled as `none` — without re-acquiring from the provider
within the call. -/
theorem probe_failure_fatal (cached : Int) (env : TransportEnv)
    (h : env.peerAlive (if cached = -1 then env.shmFd else cached) = false) :
    init_hostfd_model cached env = (none, -1) := by
  simp [init_hostfd_model, h]

/-- Witness for `probe_failure_fatal`: cached descriptor 5 fails the
probe in `envProbe`, and the call is fatal. -/
theorem probe_failure_fatal_witness :
    init_hostfd_model 5 envProbe = (none, -1) :=
  probe_failure_fatal 5 envProbe (by decide)

/-- C9 counterexample: the cached descriptor 5 fails the probe while the
provider holds a live descriptor 7 (`envProbe.shmFd = 7` passes the
probe); the claim mandates one re-acquisition before giving up, which
would succeed — but the call is fatal without consulting the provider. -/
theorem probe_no_reacquire_counterexample :
    init_hostfd_model 5 envProbe = (none, -1)
    ∧ envProbe.peerAlive envProbe.shmFd = true
    ∧ envProbe.peerAlive 5 = false := by decide

/-- No operation changes the `interface` selector field of a handle. -/
theorem applyOp_interface (h : UsbDevHandle) (op : HandleOp) :
    (applyOp h op).interface = h.interface := by
  cases op with
  | setConfiguration cfg resp =>
      rcases hp : rpcParse2 .usbSetConfiguration resp with ⟨res, echo⟩
      simp [applyOp, usb_set_configuration_model, hp]
  | setAltInterface alt resp =>
      rcases hp : rpcParse2 .usbSetAltInterface resp with ⟨res, echo⟩
      simp [applyOp, usb_set_altinterface_model, hp]
  | claimInterface => rfl
  | releaseInterface => rfl
  | resetEp => rfl
  | clearHalt => rfl
  | resetDevice => rfl
  | controlMsg => rfl
  | bulkRead => rfl
  | bulkWrite => rfl
  | interruptRead => rfl
  | interruptWrite => rfl
  | detachKernelDriver => rfl

/-- The `interface` field survives any sequence of operations. -/
theorem foldl_applyOp_interface (ops : List HandleOp) :
    ∀ h : UsbDevHandle, (ops.foldl applyOp h).interface = h.interface := by
  induction ops with
  | nil => intro h; rfl
  | cons op rest ih =>
      intro h
      simp only [List.foldl_cons]
      rw [ih (applyOp h op), applyOp_interface]

/-- C10: the `interface` selector of a handle produced by a successful
`usb_open` is the `-1` unset sentinel and stays so across every sequence
of API operations — no operation, `usb_claim_interface` and
`usb_set_altinterface` included, ever assigns it. -/
theorem interface_selector_stays_unset (dI bI : Nat)
    (resp : Option RpcResponse) (h : UsbDevHandle) (ops : List HandleOp)
    (hopen : (usb_open_model dI bI resp).2 = some h) :
    (ops.foldl applyOp h).interface = -1 := by
  rw [foldl_applyOp_interface]
  rcases hp : rpcParse2 .usbOpen resp with ⟨res, tok⟩
  simp only [usb_open_model, hp] at hopen
  by_cases hres : 0 ≤ res
  · rw [if_pos hres] at hopen
    simp only [Option.some.injEq] at hopen
    rw [← hopen]
  · rw [if_neg hres] at hopen
    cases hopen

/-- Witness for `interface_selector_stays_unset`: a concrete open followed
by set-configuration, claim-interface and set-alt-interface calls leaves
the interface selector at `-1`. -/
theorem interface_selector_stays_unset_witness :
    (([HandleOp.setConfiguration 1 none, HandleOp.claimInterface,
        HandleOp.setAltInterface 2 none]).foldl applyOp
        ⟨7, 3, 1, -1, -1, -1⟩).interface = -1 :=
  interface_selector_stays_unset 3 1 (some ⟨.usbOpen, [.int 0, .int 7]⟩)
    ⟨7, 3, 1, -1, -1, -1⟩
    [HandleOp.setConfiguration 1 none, HandleOp.claimInterface,
      HandleOp.setAltInterface 2 none] (by decide)

end Usbnet
